import Mathlib

/-!
Verification development for the FMW2 template-generator repository.

The source is TypeScript (src/src/app/page.tsx, src/src/lib/templates.ts and
revisions thereof).  All string processing is modelled on `List Char` and
wrapped into `String` at the interface.  JavaScript semantics that the source
relies on (regex anchoring, `\s`/multiline behaviour, truthiness of strings,
`Date` overflow normalisation, `trim`, String.prototype.replace with a string
pattern) are reproduced by dedicated executable functions, each documented
with the exact construct it models.  Unicode beyond the characters that occur
in the repository data (ASCII plus NBSP) is not modelled.
-/

set_option maxRecDepth 16384

namespace FMW2

/-- JavaScript whitespace (`\s`, `trim`): space, tab, LF, CR, VT, FF, NBSP.
(Other Unicode space separators are not modelled; no repository string uses
them.) -/
def isJsWs (c : Char) : Bool :=
  c == ' ' || c == '\t' || c == '\n' || c == '\r' ||
  c == '\x0b' || c == '\x0c' || c == ' '

/-- JavaScript regex line terminators (relevant for multiline `^`/`$` and for
`.`): LF and CR.  (U+2028/U+2029 not modelled.) -/
def isLineTerm (c : Char) : Bool := c == '\n' || c == '\r'

/-- JavaScript regex word character (`\w`, used by `\b`). -/
def isWordChar (c : Char) : Bool :=
  c.isAlpha || c.isDigit || c == '_'

def dropWhileWs (l : List Char) : List Char := l.dropWhile isJsWs

def trimLeftL (l : List Char) : List Char := l.dropWhile isJsWs

def trimRightL (l : List Char) : List Char :=
  (l.reverse.dropWhile isJsWs).reverse

/-- Model of `String.prototype.trim`. -/
def jsTrim (s : String) : String := ⟨trimRightL (trimLeftL s.data)⟩

/-- Model of `String.prototype.trimStart`. -/
def jsTrimStart (s : String) : String := ⟨trimLeftL s.data⟩

/-- Model of `String.prototype.trimEnd` (also of `replace(/\s+$/, "")`,
which removes exactly the maximal trailing whitespace run). -/
def jsTrimEnd (s : String) : String := ⟨trimRightL s.data⟩

/-- Model of `String.prototype.toUpperCase` (ASCII range). -/
def jsToUpper (s : String) : String := ⟨s.data.map Char.toUpper⟩

/-- Model of `String.prototype.toLowerCase` (ASCII range). -/
def jsToLower (s : String) : String := ⟨s.data.map Char.toLower⟩

/-- Does `sub` occur as a contiguous sublist of `l`?  Model of
`String.prototype.includes`. -/
def listContainsL (sub : List Char) : List Char → Bool
  | [] => sub.isEmpty
  | c :: t => sub.isPrefixOf (c :: t) || listContainsL sub t

/-- Model of `String.prototype.includes`. -/
def jsIncludes (s sub : String) : Bool := listContainsL sub.data s.data

/-- Replace the first occurrence of `pat` in `l` by `repl`; if `pat` does not
occur (or is empty, which never happens at our call sites) behave like
`String.prototype.replace` with a string pattern. -/
def replaceFirstL (pat repl : List Char) : List Char → List Char
  | [] => if pat.isEmpty then repl else []
  | c :: t =>
      if pat.isPrefixOf (c :: t) then
        repl ++ (c :: t).drop pat.length
      else
        c :: replaceFirstL pat repl t

/-- Model of `String.prototype.replace(stringPattern, replacement)` (first
occurrence, literal pattern, literal replacement). -/
def jsReplaceFirst (s pat repl : String) : String :=
  ⟨replaceFirstL pat.data repl.data s.data⟩

/-- Model of `raw.replace(/\r\n/g, "\n")`: global left-to-right replacement
of CRLF pairs. -/
def normalizeCRLFL : List Char → List Char
  | [] => []
  | '\r' :: '\n' :: t => '\n' :: normalizeCRLFL t
  | c :: t => c :: normalizeCRLFL t

def normalizeCRLF (s : String) : String := ⟨normalizeCRLFL s.data⟩

/-- Digits of a decimal `Nat` literal string (the capture of a `\d+` group)
as a number, i.e. `Number("...")` on an all-digit string. -/
def digitsToNat (l : List Char) : Nat :=
  l.foldl (fun acc c => acc * 10 + (c.toNat - '0'.toNat)) 0

/-- Model of JavaScript `Number(string)` restricted to the inputs the
repository produces: after trimming, the empty string is `0` and an optional
minus sign followed by digits is the signed value; anything else (including
fractional values, which do not occur in validated inputs) is treated as
`NaN` (`none`). -/
def jsNumber (s : String) : Option Int :=
  let t := (jsTrim s).data
  match t with
  | [] => some 0
  | '-' :: rest =>
      if rest ≠ [] ∧ rest.all Char.isDigit then some (-(digitsToNat rest : Int)) else none
  | _ =>
      if t.all Char.isDigit then some (digitsToNat t) else none

/-! ## Calendar dates

JavaScript `Date` values are modelled day-granular (all constructions in the
source normalise to local midnight before comparison).  `daysFromCivil` is
the standard civil-from-days conversion (days since 1970-01-01); it is total
over `Int` and reproduces the overflow normalisation of
`new Date(year, monthIndex, day)` for out-of-range `day` because the day is
added as an offset. -/

/-- Days from civil date (proleptic Gregorian), Hinnant's algorithm with
floor division.  `m` is 1-based; `d` may be any integer (day 0 is the last
day of the previous month, etc., exactly like the JS `Date` constructor). -/
def daysFromCivil (y m d : Int) : Int :=
  let y' := y - (if m ≤ 2 then 1 else 0)
  let era := y'.fdiv 400
  let yoe := y' - era * 400
  let mp := (m + 9).emod 12
  let doy := (153 * mp + 2).fdiv 5
  let doe := yoe * 365 + yoe.fdiv 4 - yoe.fdiv 100 + doy
  era * 146097 + doe + d - 1 - 719468

/-- Inverse of `daysFromCivil` (year, 1-based month, day). -/
def civilFromDays (z : Int) : Int × Int × Int :=
  let z' := z + 719468
  let era := z'.fdiv 146097
  let doe := z' - era * 146097
  let yoe := (doe - doe.fdiv 1460 + doe.fdiv 36524 - doe.fdiv 146096).fdiv 365
  let y := yoe + era * 400
  let doy := doe - (365 * yoe + yoe.fdiv 4 - yoe.fdiv 100)
  let mp := (5 * doy + 2).fdiv 153
  let d := doy - (153 * mp + 2).fdiv 5 + 1
  let m := if mp < 10 then mp + 3 else mp - 9
  (if m ≤ 2 then y + 1 else y, m, d)

/-- `Date.prototype.getDay`: 0 = Sunday.  1970-01-01 (day 0) was a
Thursday. -/
def dayOfWeek (days : Int) : Nat := ((days + 4).emod 7).toNat

/-- A parsed calendar date. -/
structure CivilDate where
  year : Int
  month : Int
  day : Int
  deriving DecidableEq, Repr

def CivilDate.toDays (d : CivilDate) : Int := daysFromCivil d.year d.month d.day

def daysInMonth (y m : Int) : Int :=
  if m = 2 then
    if y.emod 4 = 0 ∧ (y.emod 100 ≠ 0 ∨ y.emod 400 = 0) then 29 else 28
  else if m = 4 ∨ m = 6 ∨ m = 9 ∨ m = 11 then 30
  else 31

def digitVal (c : Char) : Int := (c.toNat : Int) - ('0'.toNat : Int)

/-- Model of `new Date(string)` for the date-only ISO form `YYYY-MM-DD`
(the format the repository's date pickers produce up to the time-of-day
part, which is irrelevant at day granularity).  Any other shape is treated
as an invalid date (`none`, i.e. `NaN`). -/
def parseDate (s : String) : Option CivilDate :=
  match s.data with
  | [y1, y2, y3, y4, '-', m1, m2, '-', d1, d2] =>
      if [y1, y2, y3, y4, m1, m2, d1, d2].all Char.isDigit then
        let y := digitVal y1 * 1000 + digitVal y2 * 100 + digitVal y3 * 10 + digitVal y4
        let m := digitVal m1 * 10 + digitVal m2
        let d := digitVal d1 * 10 + digitVal d2
        if 1 ≤ m ∧ m ≤ 12 ∧ 1 ≤ d ∧ d ≤ daysInMonth y m then
          some ⟨y, m, d⟩
        else none
      else none
  | _ => none

/-- Timestamp order on possibly-invalid dates: `a < b` is `false` whenever
either side is `NaN`, exactly like JS `<` on invalid `Date`s. -/
def optDateLt (a b : Option CivilDate) : Bool :=
  match a, b with
  | some x, some y => x.toDays < y.toDays
  | _, _ => false

/-! ## Regular expressions for field patterns

Every `pattern` in the template registry is a fully anchored regex
`^...$` compiled with `new RegExp(pattern)` and applied with
`regex.test(value)`; for an anchored pattern this is exactly full-string
matching.  The embedding represents the body between the anchors as a small
regex AST and matches with Brzozowski derivatives. -/

inductive Rx where
  | emp : Rx
  | eps : Rx
  | chr : Char → Rx
  | cls : List Char → Rx
  | ncls : List Char → Rx
  | cat : Rx → Rx → Rx
  | alt : Rx → Rx → Rx
  | star : Rx → Rx
  deriving DecidableEq, Repr

namespace Rx

def nullable : Rx → Bool
  | emp => false
  | eps => true
  | chr _ => false
  | cls _ => false
  | ncls _ => false
  | cat a b => nullable a && nullable b
  | alt a b => nullable a || nullable b
  | star _ => true

def deriv (r : Rx) (c : Char) : Rx :=
  match r with
  | emp => emp
  | eps => emp
  | chr d => if c = d then eps else emp
  | cls cs => if cs.contains c then eps else emp
  | ncls cs => if cs.contains c then emp else eps
  | cat a b =>
      if nullable a then alt (cat (deriv a c) b) (deriv b c)
      else cat (deriv a c) b
  | alt a b => alt (deriv a c) (deriv b c)
  | star a => cat (deriv a c) (star a)

/-- Full-string matching. -/
def fullMatch (r : Rx) (s : String) : Bool :=
  nullable (s.data.foldl deriv r)

/-- Literal string regex. -/
def str (s : String) : Rx :=
  s.data.foldr (fun c acc => cat (chr c) acc) eps

/-- One or more. -/
def plus (r : Rx) : Rx := cat r (star r)

/-- Zero or one. -/
def opt (r : Rx) : Rx := alt eps r

/-- `\d`. -/
def digit : Rx := cls "0123456789".data

/-- `.` — any character except a line terminator. -/
def dot : Rx := ncls ['\n', '\r']

/-- Exactly `n` repetitions. -/
def rep (r : Rx) : Nat → Rx
  | 0 => eps
  | n + 1 => cat r (rep r n)

end Rx

/-- `regex.test(value)` for the registry's anchored patterns (see `Rx`). -/
def jsRegexTest (r : Rx) (s : String) : Bool := r.fullMatch s

/-- `^\d+(\.\d+)?$` (balance, odometer, voltages). -/
def patDecimal : Rx := .cat (Rx.plus Rx.digit) (Rx.opt (.cat (.chr '.') (Rx.plus Rx.digit)))

/-- `^\d+$`. -/
def patDigits : Rx := Rx.plus Rx.digit

/-- `^\d{5}$` (vehicle MID). -/
def patFiveDigits : Rx := Rx.rep Rx.digit 5

/-- `^(Off|Leave|OL - .+)$` (leave type). -/
def patTypeOff : Rx :=
  .alt (Rx.str "Off") (.alt (Rx.str "Leave") (.cat (Rx.str "OL - ") (Rx.plus Rx.dot)))

/-- `^([01][0-9]|2[0-3])[0-5][0-9]$` (24-hour HHMM time). -/
def patTime : Rx :=
  .cat (.alt (.cat (.cls ['0', '1']) Rx.digit)
             (.cat (.chr '2') (.cls ['0', '1', '2', '3'])))
       (.cat (.cls ['0', '1', '2', '3', '4', '5']) Rx.digit)

/-- `^(0[1-9]|1[0-2])/20\d{2}$` (AFES expiry MM/20YY). -/
def patAfes : Rx :=
  .cat (.alt (.cat (.chr '0') (.cls "123456789".data))
             (.cat (.chr '1') (.cls ['0', '1', '2'])))
       (.cat (Rx.str "/20") (Rx.rep Rx.digit 2))

/-! ## Template data model (src/src/lib/template-types.ts) -/

inductive FieldType where
  | input | textarea | select | date | checkbox
  deriving DecidableEq, BEq, Repr

structure ShowIf where
  key : String
  equals : String
  deriving DecidableEq, Repr

/-- `TemplateField`.  The presentation-only `placeholder` attribute is
omitted; `pattern` holds the compiled form of the source's pattern string
(see `Rx`). -/
structure TemplateField where
  key : String
  label : String
  type : FieldType
  options : List String := []
  required : Option Bool := none
  pattern : Option Rx := none
  errorMessage : Option String := none
  default : Option String := none
  showIf : Option ShowIf := none
  deriving DecidableEq, Repr

/-- A submitted value map (`Record<string, string>`): `none` models a key
that is `undefined`. -/
def Values : Type := String → Option String

/-- Value map from an association list (later entries unreachable for
duplicate keys, like object literals read left-to-right with `find?`;
the lists we build have distinct keys). -/
def valsOf (l : List (String × String)) : Values :=
  fun k => (l.find? (fun p => p.1 == k)).map (·.2)

/-- `TemplateDefinition`.  `generate` returns `none` when the source closure
would throw (e.g. date-fns `format` on an invalid date); the caller's
`try/catch` turns that into a generic failure. -/
structure TemplateDefinition where
  name : String
  fields : List TemplateField
  generate : Values → Option String
  customUI : Bool := false

/-! ## Validation & generation engine (src/src/app/page.tsx, `handleGenerate`
and `isFieldVisible`, lines 1630–1725; identical in src/unnamed/part_000) -/

/-- `isFieldVisible`: no `showIf`, or `values[showIf.key] === showIf.equals`
(an absent key is `undefined` and never equal to a string). -/
def isFieldVisible (f : TemplateField) (v : Values) : Bool :=
  match f.showIf with
  | none => true
  | some c => v c.key == some c.equals

/-- Predicate of the `template.fields.find(...)` missing-field check:
visible, `required ?? true`, and the value is `undefined` or trims to
empty. -/
def missingPred (v : Values) (f : TemplateField) : Bool :=
  isFieldVisible f v && f.required.getD true &&
    (match v f.key with
     | none => true
     | some s => jsTrim s == "")

/-- Predicate of the first field that fails the pattern loop: visible, has a
declared pattern, has a truthy (non-empty, defined) value, and the regex
test fails. -/
def patternFailPred (v : Values) (f : TemplateField) : Bool :=
  isFieldVisible f v &&
    (match f.pattern, v f.key with
     | some r, some s => s != "" && !(jsRegexTest r s)
     | _, _ => false)

/-- Filter of the `dateFields` list: date-typed, visible, `required !==
false`, and the value is `undefined` or trims to empty. -/
def dateBadPred (v : Values) (f : TemplateField) : Bool :=
  f.type == .date && isFieldVisible f v && f.required != some false &&
    (match v f.key with
     | none => true
     | some s => jsTrim s == "")

/-- Body of the loop over `dateFields`: `!value || isNaN(new Date(value))`. -/
def dateInnerFail (v : Values) (f : TemplateField) : Bool :=
  match v f.key with
  | none => true
  | some s => s == "" || (parseDate s).isNone

/-- `f.key.toLowerCase().includes("start") && f.type === "date"`. -/
def startKeyPred (f : TemplateField) : Bool :=
  jsIncludes (jsToLower f.key) "start" && f.type == .date

/-- `f.key.toLowerCase().includes("end") && f.type === "date"`. -/
def endKeyPred (f : TemplateField) : Bool :=
  jsIncludes (jsToLower f.key) "end" && f.type == .date

/-- `relevantFields`: the submitted map restricted to declared keys, with
`fieldValues[key] || ""` defaulting. -/
def restrictValues (t : TemplateDefinition) (v : Values) : Values :=
  fun k => if t.fields.any (fun f => f.key == k) then some ((v k).getD "") else none

/-- Outcome of `handleGenerate` (§7 error taxonomy; `genericError` is the
catch-all `try/catch` for an exception escaping `generate`). -/
inductive GenResult where
  | missingField (label : String)
  | invalidFormat (label message : String)
  | invalidDate (label : String)
  | dateRangeError
  | genericError
  | ok (output : String)
  deriving DecidableEq, Repr

def GenResult.isInvalidDate : GenResult → Bool
  | .invalidDate _ => true
  | _ => false

def GenResult.isMissing : GenResult → Bool
  | .missingField _ => true
  | _ => false

def GenResult.isInvalidFormat : GenResult → Bool
  | .invalidFormat _ _ => true
  | _ => false

/-- Default pattern-failure message. -/
def defaultPatternMsg (f : TemplateField) : String :=
  "Invalid input in \"" ++ f.label ++ "\"."

/-- Final stage: `template.generate(relevantFields)`, with an escaping
exception caught as the generic failure. -/
def stageGenerate (t : TemplateDefinition) (v : Values) : GenResult :=
  match t.generate (restrictValues t v) with
  | some s => .ok s
  | none => .genericError

/-- Start/end ordering stage. -/
def stageRange (t : TemplateDefinition) (v : Values) : GenResult :=
  let startKey := (t.fields.find? startKeyPred).map (·.key)
  let endKey := (t.fields.find? endKeyPred).map (·.key)
  let rangeBad :=
    match startKey, endKey with
    | some sk, some ek =>
        optDateLt ((v ek).bind parseDate) ((v sk).bind parseDate)
    | _, _ => false
  if rangeBad then .dateRangeError else stageGenerate t v

/-- `dateFields` loop stage. -/
def stageDate (t : TemplateDefinition) (v : Values) : GenResult :=
  match (t.fields.filter (dateBadPred v)).find? (dateInnerFail v) with
  | some f => .invalidDate f.label
  | none => stageRange t v

/-- Pattern loop stage. -/
def stagePattern (t : TemplateDefinition) (v : Values) : GenResult :=
  match t.fields.find? (patternFailPred v) with
  | some f => .invalidFormat f.label (f.errorMessage.getD (defaultPatternMsg f))
  | none => stageDate t v

/-- The validation and generation pipeline, in source order with
short-circuiting: missing-field check, pattern loop, `dateFields` loop,
start/end ordering, then `template.generate(relevantFields)`. -/
def validateAndGenerate (t : TemplateDefinition) (v : Values) : GenResult :=
  match t.fields.find? (missingPred v) with
  | some f => .missingField f.label
  | none => stagePattern t v

/-! ## Date formatting used by the generate closures -/

def MONTHS : List String :=
  ["January", "February", "March", "April", "May", "June", "July",
   "August", "September", "October", "November", "December"]

def DAY_NAMES : List String :=
  ["SUNDAY", "MONDAY", "TUESDAY", "WEDNESDAY", "THURSDAY", "FRIDAY", "SATURDAY"]

def monthFullName (m : Int) : String := MONTHS.getD (m - 1).toNat ""

/-- date-fns `format(d, "d MMMM")`: unpadded day, full month name. -/
def fmtDMMMM (d : CivilDate) : String :=
  toString d.day ++ " " ++ monthFullName d.month

def pad2 (n : Int) : String :=
  if n < 10 then "0" ++ toString n else toString n

/-- date-fns `format(d, "ddMMyy")`. -/
def fmtDdMMyy (d : CivilDate) : String :=
  pad2 d.day ++ pad2 d.month ++ pad2 (d.year.emod 100)

/-- date-fns `addDays`. -/
def addDaysDate (d : CivilDate) (n : Int) : CivilDate :=
  let (y, m, dd) := civilFromDays (d.toDays + n)
  ⟨y, m, dd⟩

/-- The rank option list shared by the templates. -/
def RANKS : List String :=
  ["REC", "PTE", "LCP", "CPL", "CFC", "3SG", "2SG", "2LT", "LTA", "ME1T", "ME1", "ME2"]

/-! ## Template registry entries exercised by the claims
(src/src/app/page.tsx lines 656–1236; field specifications agree with
src/src/lib/templates.ts) -/

/-- `offAwarded.generate`.  `format(new Date(s), ...)` throws on an invalid
date (modelled by `none`); evaluation order of the template literal is
start date before end date. -/
def offAwardedGenerate (v : Values) : Option String :=
  let rank := (v "rank").getD ""
  let name := (v "name").getD ""
  let offAwardReason := (v "offAwardReason").getD ""
  let startDate := (v "startDate").getD ""
  let endDate := (v "endDate").getD ""
  let balance := (v "balance").getD ""
  let recommendedBy := (v "recommendedBy").getD ""
  let dates? : Option String :=
    if startDate == endDate then
      (parseDate startDate).map fmtDMMMM
    else do
      let a ← parseDate startDate
      let b ← parseDate endDate
      pure (fmtDMMMM a ++ " to " ++ fmtDMMMM b)
  dates?.map fun dates =>
    "• Rank/Name: " ++ rank ++ " " ++ jsToUpper name ++
    "\n• Reason for Accumulation: " ++ offAwardReason ++
    "\n• Dates Accumulated: " ++ dates ++
    "\n• Balance (After Accumulation): " ++ balance ++
    "\n• Recommended By: " ++ recommendedBy

def offAwarded : TemplateDefinition where
  name := "Off Awarded"
  fields :=
    [ { key := "rank", label := "Rank", type := .select, options := RANKS },
      { key := "name", label := "Name", type := .input },
      { key := "offAwardReason", label := "Reason for Off Awarded", type := .input },
      { key := "startDate", label := "Start Date", type := .date },
      { key := "endDate", label := "End Date", type := .date },
      { key := "balance", label := "Balance Left", type := .input,
        pattern := some patDecimal },
      { key := "recommendedBy", label := "Recommended By", type := .input,
        default := some "ME3 Alex" } ]
  generate := offAwardedGenerate

/-- `offTemplate.generate`.  The time-of-day tag condition is
`isHalfDay && timeOff` — string truthiness (non-emptiness), not boolean
truth; src/src/lib/templates.ts writes it as a ternary and
src/src/app/page.tsx interpolates the `&&`-chain directly, which coincide
for string operands. -/
def offTemplateGenerate (v : Values) : Option String :=
  let rank := (v "rank").getD ""
  let name := (v "name").getD ""
  let typeOff := (v "typeOff").getD ""
  let startDate := (v "startDate").getD ""
  let endDate := (v "endDate").getD ""
  let isHalfDay := (v "isHalfDay").getD ""
  let timeOff := (v "timeOff").getD ""
  let balance := (v "balance").getD ""
  let recommendedBy := (v "recommendedBy").getD ""
  let dates? : Option String :=
    if startDate == endDate then
      (parseDate startDate).map fmtDMMMM
    else do
      let a ← parseDate startDate
      let b ← parseDate endDate
      pure (fmtDMMMM a ++ " to " ++ fmtDMMMM b)
  dates?.map fun dates =>
    " • Rank/Name: " ++ rank ++ " " ++ jsToUpper name ++
    "\n • Type: " ++ typeOff ++
    "\n • Dates: " ++ dates ++ " " ++
    (if isHalfDay != "" && timeOff != "" then "[" ++ timeOff ++ "]" else "") ++
    "\n • Balance Left: " ++ balance ++
    "\n • Recommended By: " ++ recommendedBy

def offTemplate : TemplateDefinition where
  name := "Leave/Off Application Template"
  fields :=
    [ { key := "rank", label := "Rank", type := .select, options := RANKS },
      { key := "name", label := "Name", type := .input },
      { key := "typeOff", label := "Type", type := .input,
        pattern := some patTypeOff,
        errorMessage := some "Must be \"Off\", \"Leave\", or \"OL - [country]\"" },
      { key := "startDate", label := "Start Date", type := .date },
      { key := "endDate", label := "End Date", type := .date },
      { key := "isHalfDay", label := "Is Half Day?", type := .checkbox },
      { key := "timeOff", label := "AM OFF/PM OFF", type := .select,
        options := ["AM", "PM"],
        showIf := some ⟨"isHalfDay", "true"⟩ },
      { key := "balance", label := "Balance Left", type := .input,
        pattern := some patDecimal },
      { key := "recommendedBy", label := "Recommended By", type := .input,
        default := some "ME3 Alex" } ]
  generate := offTemplateGenerate

/-- `reportSick.generate` (src/src/app/page.tsx lines 905–968). -/
def reportSickGenerate (v : Values) : Option String :=
  let newStatus := (v "newStatus").getD ""
  let rank := (v "rank").getD ""
  let name := (v "name").getD ""
  let location := (v "location").getD ""
  let typeSick := (v "typeSick").getD ""
  let dateIncident := (v "dateIncident").getD ""
  let startTimeIncident := (v "startTimeIncident").getD ""
  let reasonSick := (v "reasonSick").getD ""
  let endTimeIncident := (v "endTimeIncident").getD ""
  let sickStatus := (v "sickStatus").getD ""
  let dayStatus := (v "dayStatus").getD ""
  let mcRefNo := (v "mcRefNo").getD ""
  let recommendedBy := (v "recommendedBy").getD ""
  do
  let di ← parseDate dateIncident
  let updatedPart ←
    if newStatus == "UPDATED" then do
      let n ← jsNumber dayStatus
      pure ("\nAt around " ++ endTimeIncident ++ "hrs, serviceman was given " ++
        dayStatus ++ " day " ++ sickStatus ++ " from " ++ fmtDdMMyy di ++ " to " ++
        fmtDdMMyy (addDaysDate di (n - 1)) ++ ". " ++
        (if mcRefNo != "" then "Ref No.: " ++ mcRefNo else "") ++ "\n")
    else pure ""
  pure ("*" ++ newStatus ++ "*\n\nRSI/RSO/MA Reporting Template\n" ++
    "(Serviceman do not need to fill out SN 10 and 11)\n\n" ++
    "1. Type of Incident:\nNon-Training Related\n\n" ++
    "2. Date & Time of Incident:\n" ++ fmtDdMMyy di ++ "/ " ++ startTimeIncident ++ "hrs\n\n" ++
    "3. Serviceman/Woman Involved: Rank/Name: " ++ rank ++ " " ++ jsToUpper name ++ "\n\n" ++
    "4. Serviceman/woman Unit/ Company Unit:\n1AMB/ 11FMD/ FMW2\n\n" ++
    "5. Location: " ++ location ++ "\n\n" ++
    "6. Details of Incident:\nAt " ++ fmtDdMMyy di ++ " around " ++ startTimeIncident ++
    "hrs, serviceman went to " ++ typeSick ++ " at " ++
    (if location == "Sungei Gedong Medical Centre" then "SGMC" else location) ++
    " for " ++ jsToUpper reasonSick ++ ".\n" ++ updatedPart ++
    "\n7. Injury/ Damages: NIL\n\n8. Follow-up Updates: NIL\n\n" ++
    "9. NOK informed: Yes\n\n10. Date/ Time Verbal Report to IHQ & GSOC:\n\n" ++
    "11. Date/ Time of ESIS to GSOC:\n\n12. Reporting Person: " ++ recommendedBy)

def reportSick : TemplateDefinition where
  name := "RSI/RSO/MA Reporting Template"
  fields :=
    [ { key := "newStatus", label := "Status", type := .select,
        options := ["NEW", "UPDATED"] },
      { key := "rank", label := "Rank", type := .select, options := RANKS },
      { key := "name", label := "Name", type := .input },
      { key := "location", label := "Location", type := .input,
        default := some "Sungei Gedong Medical Centre" },
      { key := "typeSick", label := "Status", type := .select,
        options := ["RSI", "RSO", "MA", "FFI", "ORD FFI"] },
      { key := "dateIncident", label := "Date of Incident", type := .date },
      { key := "startTimeIncident", label := "Start Time of Incident", type := .input,
        pattern := some patTime,
        errorMessage := some "Time must be in 24hr format (e.g. 1320)" },
      { key := "reasonSick", label := "Reason for Report", type := .input },
      { key := "endTimeIncident", label := "End Time of Incident", type := .input,
        pattern := some patTime,
        errorMessage := some "Time must be in 24hr format (e.g. 1320)",
        showIf := some ⟨"newStatus", "UPDATED"⟩ },
      { key := "sickStatus", label := "Status Sick", type := .input,
        showIf := some ⟨"newStatus", "UPDATED"⟩ },
      { key := "dayStatus", label := "Number of Days for Status", type := .input,
        pattern := some patDigits,
        showIf := some ⟨"newStatus", "UPDATED"⟩ },
      { key := "mcRefNo", label := "MC Ref No", type := .input,
        pattern := some patDigits,
        showIf := some ⟨"newStatus", "UPDATED"⟩,
        required := some false },
      { key := "recommendedBy", label := "Recommended By", type := .input,
        default := some "ME3 Alex" } ]
  generate := reportSickGenerate

/-! ## Line-anchored matching

The roster/pruner regexes are of the form `/^...$/m`.  In a multiline JS
regex `^` matches at index 0 or after a line terminator, and `$` matches at
the end of input or before a line terminator.  `\s` includes line
terminators, so a leading `\s*` can consume preceding blank lines and a
trailing `\s*$` can extend across whitespace up to the last line terminator
of its run.  These functions reproduce that behaviour on `List Char`. -/

/-- Index (from the start of `l`) just past the last line terminator inside
`l`, if any. -/
def lastLineTermEnd (l : List Char) : Option Nat :=
  match l with
  | [] => none
  | c :: t =>
      match lastLineTermEnd t with
      | some k => some (k + 1)
      | none => if isLineTerm c then some 0 else none

/-- Greedy extent of a trailing `\s*$`: the number of whitespace characters
consumed so that the position after them is the end of input or just before
a line terminator; `none` when `$` cannot be satisfied. -/
def trailExtent (r : List Char) : Option Nat :=
  let run := r.takeWhile isJsWs
  if run.length = r.length then some run.length
  else lastLineTermEnd run

/-- Case-insensitive (ASCII) literal prefix match, returning the remainder;
models matching a literal inside a regex compiled with the `i` flag. -/
def dropCiPrefix : List Char → List Char → Option (List Char)
  | [], r => some r
  | _ :: _, [] => none
  | c :: cs, d :: ds =>
      if c.toLower = d.toLower then dropCiPrefix cs ds else none

/-- Attempt `^\s*LBL:\s*(\d+)\s*$` at a line-start position whose suffix is
`rest`; returns the captured digits and the match length. -/
def tryLabelAt (lbl : List Char) (rest : List Char) : Option (List Char × Nat) :=
  let ws1 := rest.takeWhile isJsWs
  let r1 := rest.drop ws1.length
  if (lbl ++ [':']).isPrefixOf r1 then
    let r2 := r1.drop (lbl.length + 1)
    let ws2 := r2.takeWhile isJsWs
    let r3 := r2.drop ws2.length
    let digs := r3.takeWhile Char.isDigit
    let r4 := r3.drop digs.length
    if digs.isEmpty then none
    else
      match trailExtent r4 with
      | some k => some (digs, ws1.length + lbl.length + 1 + ws2.length + digs.length + k)
      | none => none
  else none

/-- Scan for the first match of an attempt function, trying exactly the
positions where multiline `^` holds (index 0 and the position after each
line terminator), leftmost first.  Returns the match position and payload. -/
def scanLineStarts (f : List Char → Option β) : List Char → Nat → Bool → Option (Nat × β)
  | l, pos, atStart =>
    match (if atStart then f l else none) with
    | some b => some (pos, b)
    | none =>
      match l with
      | [] => none
      | c :: t => scanLineStarts f t (pos + 1) (isLineTerm c)

/-- First capture of `/^\s*LBL:\s*(\d+)\s*$/m` over `text` as a number,
defaulting to 0 when there is no match (`Number(m?.[1] ?? 0)`). -/
def labelValue (lbl : String) (text : String) : Nat :=
  match scanLineStarts (tryLabelAt lbl.data) text.data 0 true with
  | some (_, digs, _) => digitsToNat digs
  | none => 0

/-- `text.replace(/^\s*LBL:\s*\d+\s*$/m, repl)`: replace the first matched
span (which may include adjacent blank-line whitespace). -/
def labelReplace (lbl repl text : String) : String :=
  match scanLineStarts (tryLabelAt lbl.data) text.data 0 true with
  | some (pos, _, len) =>
      ⟨text.data.take pos ++ repl.data ++ text.data.drop (pos + len)⟩
  | none => text

/-! ## Night-strength adjuster (`nightStrength.generate`,
src/src/lib/templates.ts lines 515–561 = src/src/app/page.tsx lines
1176–1222) -/

/-- `nightStrength.generate`.  `todayDate` models the
`new Date().toLocaleDateString("en-GB", ...)` string embedded in the
output; the remaining arguments are the destructured field values. -/
def nightStrengthGenerate (todayDate rank name psNightStrength blk210 : String) : String :=
  let stayIn := labelValue "STAYIN" psNightStrength
  let stayOut := labelValue "STAYOUT" psNightStrength
  let outstation := labelValue "OS" psNightStrength
  let others := labelValue "OTHERS" psNightStrength
  let rso := labelValue "RSO" psNightStrength
  let rsi := labelValue "RSI" psNightStrength
  let blk420 : String :=
    match jsNumber blk210 with
    | some n => toString ((stayIn : Int) - n)
    | none => "NaN"
  let moved := outstation + others + rso + rsi
  let newStayOut := stayOut + moved
  let psAdj :=
    labelReplace "STAYOUT" ("STAYOUT: " ++ toString newStayOut)
      (labelReplace "RSI" "RSI: 0"
        (labelReplace "RSO" "RSO: 0"
          (labelReplace "OTHERS" "OTHERS: 0"
            (labelReplace "OS" "OS: 0" psNightStrength))))
  "11FMD NIGHT STRENGTH " ++ todayDate ++ " BY " ++ rank ++ " " ++ jsToUpper name ++
  "\n\n" ++ psAdj ++ "\n\nSTAYIN DETAILS\nBLK210: " ++ blk210 ++ "\nBLK420: " ++ blk420

/-! ## Guard-duty list builder (`GuardDutyUI.handleGenerate`,
src/src/app/page.tsx lines 1347–1377 = src/unnamed/part_001 lines 187–214) -/

inductive ICType where
  | ic2 | ic3 | ic4
  deriving DecidableEq, Repr

def ICType.label : ICType → String
  | .ic2 => "2IC"
  | .ic3 => "3IC"
  | .ic4 => "4IC"

/-- One duty date.  The source stores a JS `Date`; `getDate`, `getMonth()+1`
and `getDay` correspond to `date.day`, `date.month` and the weekday of
`date.toDays`. -/
structure GuardDutyEntry where
  date : CivilDate
  icTypes : List ICType
  numGuards : Nat
  deriving DecidableEq, Repr

inductive GuardResult where
  | noEntries
  | ok (output : String)
  deriving DecidableEq, Repr

/-- A two-line `LBL: ` / `NUMBER: ` stanza followed by its (space-bearing)
blank line. -/
def stanza (lbl : String) : String := lbl ++ ": \nNUMBER: \n \n"

def guardDutyBlock (e : GuardDutyEntry) : String :=
  toString e.date.day ++ "/" ++ toString e.date.month ++ " (" ++
    DAY_NAMES.getD (dayOfWeek e.date.toDays) "" ++ ")\n" ++
  String.join (e.icTypes.map (fun ic => stanza ic.label)) ++
  String.join (List.replicate e.numGuards (stanza "G"))

/-- The builder: empty entry list fails (`NoEntries`); otherwise header,
blocks in list order, a ten-`=` separator after every non-final block, and
a final `trimEnd`. -/
def buildGuardDutyList (selectedMonth : Nat) (selectedYear : Int)
    (entries : List GuardDutyEntry) : GuardResult :=
  if entries.isEmpty then .noEntries
  else
    let header := "GUARD DUTY " ++ jsToUpper (MONTHS.getD selectedMonth "") ++ " " ++
      toString selectedYear ++ "\n"
    let n := entries.length
    let blocks := entries.enum.map fun p =>
      guardDutyBlock p.2 ++ (if p.1 < n - 1 then "==========\n" else "")
    .ok (jsTrimEnd (header ++ String.join blocks))

/-! ## Guard-duty list pruner (`pruneGuardDutyList`,
src/src/app/page.tsx lines 84–163 = src/unnamed/part_002 lines 164–229) -/

/-- Attempt `^GUARD DUTY\s+([A-Z]+)\s+(\d{4})\s*$` (flags `im`) at a
line-start suffix.  Returns the captured month name and year digits and the
length of the match core (up to the last year digit); `match[0].trim()`
equals exactly that core since the match starts at a non-space character
and `trim` removes the `\s*$` tail. -/
def tryHeaderAt (rest : List Char) : Option (List Char × List Char × Nat) :=
  match dropCiPrefix "GUARD DUTY".data rest with
  | none => none
  | some r1 =>
      let ws1 := r1.takeWhile isJsWs
      if ws1.isEmpty then none
      else
        let r2 := r1.drop ws1.length
        let letters := r2.takeWhile Char.isAlpha
        if letters.isEmpty then none
        else
          let r3 := r2.drop letters.length
          let ws2 := r3.takeWhile isJsWs
          if ws2.isEmpty then none
          else
            let r4 := r3.drop ws2.length
            let digs := r4.takeWhile Char.isDigit
            if digs.length ≠ 4 then none
            else
              let r5 := r4.drop 4
              if (trailExtent r5).isSome then
                some (letters, digs,
                  "GUARD DUTY".length + ws1.length + letters.length + ws2.length + 4)
              else none

/-- `monthNameToIndex`: trimmed, lowercased lookup in the month table;
unknown names yield `undefined`. -/
def monthNameToIndex (s : String) : Option Nat :=
  (MONTHS.map jsToLower).findIdx? (· == jsToLower (jsTrim s))

/-- Attempt `^\s*(\d{1,2})\/(\d{1,2})\b.*$` (flags `gm`) at a line-start
suffix: optional (possibly multi-line) whitespace, a 1–2 digit day, `/`, a
1–2 digit month, a word boundary, then the rest of the line.  A 3-digit run
fails (greedy `\d{1,2}` plus the following literal/boundary admits no
split). -/
def tryDateLineAt (rest : List Char) : Option (List Char × List Char × Nat) :=
  let ws1 := rest.takeWhile isJsWs
  let r1 := rest.drop ws1.length
  let dayRun := r1.takeWhile Char.isDigit
  if dayRun.length = 0 ∨ dayRun.length > 2 then none
  else
    match r1.drop dayRun.length with
    | '/' :: r2 =>
        let monRun := r2.takeWhile Char.isDigit
        if monRun.length = 0 ∨ monRun.length > 2 then none
        else
          let r3 := r2.drop monRun.length
          let boundaryOk := match r3 with
            | [] => true
            | c :: _ => !isWordChar c
          if boundaryOk then
            let lineRest := r3.takeWhile (fun c => !isLineTerm c)
            some (dayRun, monRun,
              ws1.length + dayRun.length + 1 + monRun.length + lineRest.length)
          else none
    | _ => none

/-- All matches of the date-line regex in document order, as
(index, day digits, month digits, length); scanning resumes at the end of
each match (`matchAll` semantics).  The fuel argument starts at
`l.length + 1`; every step consumes at least one character, so it never
runs out before the list does. -/
def findAllDateMatchesAux : Nat → List Char → Nat → Bool →
    List (Nat × List Char × List Char × Nat)
  | 0, _, _, _ => []
  | fuel + 1, l, pos, atStart =>
      match (if atStart then tryDateLineAt l else none) with
      | some (d, m, len) =>
          (pos, d, m, len) :: findAllDateMatchesAux fuel (l.drop len) (pos + len) false
      | none =>
          match l with
          | [] => []
          | c :: t => findAllDateMatchesAux fuel t (pos + 1) (isLineTerm c)

def findAllDateMatches (l : List Char) : List (Nat × List Char × List Char × Nat) :=
  findAllDateMatchesAux (l.length + 1) l 0 true

/-- Slice the body into blocks: each block runs from its match index up to
the next match index (or the end of the body). -/
def blockSlices (body : List Char) :
    List (Nat × List Char × List Char × Nat) → List (List Char × Nat × Nat)
  | [] => []
  | [(p, d, m, _)] => [(body.drop p, digitsToNat d, digitsToNat m)]
  | (p, d, m, _) :: (p2, d2, m2, len2) :: rest =>
      ((body.drop p).take (p2 - p), digitsToNat d, digitsToNat m) ::
        blockSlices body ((p2, d2, m2, len2) :: rest)

/-- Acceptor for the full-suffix language of `/(\n\s*=+\s*)+\s*$/` (no `m`
flag, so `$` is end of input): the suffix starts with `\n`, consists of
whitespace and `=` only, contains at least one `=`, and no `\n`-delimited
segment has two separate `=` runs.  `st`: 0 = before this segment's run,
1 = inside it, 2 = after it. -/
def sepAux : List Char → Nat → Bool → Bool
  | [], _, seen => seen
  | c :: t, st, seen =>
      if c = '\n' then sepAux t 0 seen
      else if c = '=' then (if st = 2 then false else sepAux t 1 true)
      else if isJsWs c then sepAux t (if st = 1 then 2 else st) seen
      else false

def sepSuffix : List Char → Bool
  | '\n' :: t => sepAux t 0 false
  | _ => false

/-- Leftmost start of a trailing-separator match, if any. -/
def findSepStart : List Char → Nat → Option Nat
  | l, pos =>
    if sepSuffix l then some pos
    else
      match l with
      | [] => none
      | _ :: t => findSepStart t (pos + 1)

/-- `replace(/(\n\s*=+\s*)+\s*$/g, "")`. -/
def stripTrailingSeps (l : List Char) : List Char :=
  match findSepStart l 0 with
  | some p => l.take p
  | none => l

/-- Pruning cleanup applied to each kept block:
`replace(/\s+$/g,"")`, then the separator strip, then `trimEnd()`. -/
def cleanBlock (l : List Char) : List Char :=
  trimRightL (stripTrailingSeps (trimRightL l))

/-- The first header match of the pruner over the trimmed text. -/
def pruneHeaderScan (textL : List Char) :
    Option (Nat × List Char × List Char × Nat) :=
  scanLineStarts tryHeaderAt textL 0 true

/-- `headerLine`: the trimmed matched header, or empty when there is no
header. -/
def pruneHeaderLine (textL : List Char) : List Char :=
  match pruneHeaderScan textL with
  | some (pos, _, _, coreLen) => (textL.drop pos).take coreLen
  | none => []

/-- The body to be block-parsed: the text with the (first occurrence of
the) header line removed and leading whitespace trimmed, or the whole text
when there is no header. -/
def pruneBody (textL : List Char) : List Char :=
  match pruneHeaderScan textL with
  | some _ => trimLeftL (replaceFirstL (pruneHeaderLine textL) [] textL)
  | none => textL

/-- `pruneGuardDutyList(raw, today)`.  `today` is the day number of
`startOfDay(today)`; `currentYear` models `new Date().getFullYear()`, used
only when no header line is present.  The function is total: every input
produces a string. -/
def pruneGuardDutyList (raw : String) (today currentYear : Int) : String :=
  let text := jsTrim (normalizeCRLF raw)
  if text == "" then ""
  else
    let textL := text.data
    let hdr := pruneHeaderScan textL
    let headerLine : List Char := pruneHeaderLine textL
    let headerMonthIdx : Option Nat :=
      match hdr with
      | some (_, mn, _, _) => monthNameToIndex ⟨mn⟩
      | none => none
    let headerYear : Int :=
      match hdr with
      | some (_, _, yd, _) =>
          let yn : Int := digitsToNat yd
          if yn ≤ 99 then 1900 + yn else yn
      | none => currentYear
    let body : List Char := pruneBody textL
    let ms := findAllDateMatches body
    if ms.isEmpty then text
    else
      let blocks := blockSlices body ms
      let withDates := blocks.map fun b =>
        let mIdxLine : Int := (b.2.2 : Int) - 1
        let mIdx : Int :=
          if 0 ≤ mIdxLine ∧ mIdxLine ≤ 11 then mIdxLine
          else ((headerMonthIdx.map Int.ofNat).getD 0)
        (daysFromCivil headerYear (mIdx + 1) b.2.1, b.1)
      let kept := withDates.filter fun b => today ≤ b.1
      let cleaned := kept.map fun b => cleanBlock b.2
      if cleaned.isEmpty then (if headerLine.isEmpty then "" else ⟨headerLine⟩)
      else
        let sep := "\n\n==============\n\n".data
        let rebuilt := (cleaned.intersperse sep).flatten
        if headerLine.isEmpty then ⟨rebuilt⟩
        else ⟨headerLine ++ "\n\n".data ++ rebuilt⟩

/-! ## Concrete inputs used by the claim theorems -/

/-- A complete, valid `offAwarded` submission with the two dates left as
parameters. -/
def offAwardedVals (sd ed : String) : Values :=
  valsOf [("rank", "3SG"), ("name", "John"), ("offAwardReason", "Support"),
          ("startDate", sd), ("endDate", ed), ("balance", "2"),
          ("recommendedBy", "ME3 Alex")]

/-- An `offAwarded` submission with the Name field omitted. -/
def offAwardedNoName : Values :=
  valsOf [("rank", "3SG"), ("offAwardReason", "Support"),
          ("startDate", "2025-06-03"), ("endDate", "2025-06-05"),
          ("balance", "2"), ("recommendedBy", "ME3 Alex")]

/-- A complete `reportSick` submission (status NEW) with the start time left
as a parameter. -/
def reportSickVals (t : String) : Values :=
  valsOf [("newStatus", "NEW"), ("rank", "3SG"), ("name", "John"),
          ("location", "Sungei Gedong Medical Centre"), ("typeSick", "RSI"),
          ("dateIncident", "2025-06-03"), ("startTimeIncident", t),
          ("reasonSick", "fever"), ("recommendedBy", "ME3 Alex")]

/-- A complete `offTemplate` submission with the half-day checkbox value and
the time-of-day selection left as parameters. -/
def offTemplateVals (ihd tOff : String) : Values :=
  valsOf [("rank", "3SG"), ("name", "John"), ("typeOff", "Leave"),
          ("startDate", "2025-06-03"), ("endDate", "2025-06-04"),
          ("isHalfDay", ihd), ("timeOff", tOff), ("balance", "2"),
          ("recommendedBy", "ME3 Alex")]

/-- An `offTemplate` submission in which `isHalfDay` was never touched
(absent) and `timeOff` is empty. -/
def offTemplateNoHalf : Values :=
  valsOf [("rank", "3SG"), ("name", "John"), ("typeOff", "Leave"),
          ("startDate", "2025-06-03"), ("endDate", "2025-06-04"),
          ("balance", "2"), ("recommendedBy", "ME3 Alex")]

def entryFeb7 : GuardDutyEntry := ⟨⟨2026, 2, 7⟩, [.ic2], 2⟩

def entryFeb9 : GuardDutyEntry := ⟨⟨2026, 2, 9⟩, [], 3⟩

/-- The builder output for `[entryFeb7, entryFeb9]` in February 2026. -/
def gdListFeb : String :=
  "GUARD DUTY FEBRUARY 2026\n7/2 (SATURDAY)\n2IC: \nNUMBER: \n \nG: \nNUMBER: \n \nG: \nNUMBER: \n \n==========\n9/2 (MONDAY)\nG: \nNUMBER: \n \nG: \nNUMBER: \n \nG: \nNUMBER:"

/-- The roster of the specification's night-strength example. -/
def ps8 : String := "STAYIN: 40\nSTAYOUT: 5\nOS: 2\nOTHERS: 1\nRSO: 0\nRSI: 1"

/-- The same roster with a heading followed by a blank line before the OS
line. -/
def ps8blank : String :=
  "HQ STRENGTH\n\nOS: 2\nSTAYIN: 40\nSTAYOUT: 5\nOTHERS: 1\nRSO: 0\nRSI: 1"

/-! ## Helper lemmas -/

theorem ne_missingField_of_not {x : GenResult} (h : x.isMissing = false)
    (lab : String) : x ≠ .missingField lab := by
  intro hc; subst hc; simp [GenResult.isMissing] at h

theorem ne_invalidFormat_of_not {x : GenResult} (h : x.isInvalidFormat = false)
    (lab m : String) : x ≠ .invalidFormat lab m := by
  intro hc; subst hc; simp [GenResult.isInvalidFormat] at h

theorem ne_invalidDate_of_not {x : GenResult} (h : x.isInvalidDate = false)
    (lab : String) : x ≠ .invalidDate lab := by
  intro hc; subst hc; simp [GenResult.isInvalidDate] at h

theorem stageGenerate_isMissing (t : TemplateDefinition) (v : Values) :
    (stageGenerate t v).isMissing = false := by
  unfold stageGenerate; split <;> rfl

theorem stageRange_isMissing (t : TemplateDefinition) (v : Values) :
    (stageRange t v).isMissing = false := by
  unfold stageRange
  dsimp only
  split
  · rfl
  · exact stageGenerate_isMissing t v

theorem stageDate_isMissing (t : TemplateDefinition) (v : Values) :
    (stageDate t v).isMissing = false := by
  unfold stageDate
  split
  · rfl
  · exact stageRange_isMissing t v

theorem stagePattern_isMissing (t : TemplateDefinition) (v : Values) :
    (stagePattern t v).isMissing = false := by
  unfold stagePattern
  split
  · rfl
  · exact stageDate_isMissing t v

theorem stageGenerate_isInvalidFormat (t : TemplateDefinition) (v : Values) :
    (stageGenerate t v).isInvalidFormat = false := by
  unfold stageGenerate; split <;> rfl

theorem stageRange_isInvalidFormat (t : TemplateDefinition) (v : Values) :
    (stageRange t v).isInvalidFormat = false := by
  unfold stageRange
  dsimp only
  split
  · rfl
  · exact stageGenerate_isInvalidFormat t v

theorem stageDate_isInvalidFormat (t : TemplateDefinition) (v : Values) :
    (stageDate t v).isInvalidFormat = false := by
  unfold stageDate
  split
  · rfl
  · exact stageRange_isInvalidFormat t v

theorem stageGenerate_isInvalidDate (t : TemplateDefinition) (v : Values) :
    (stageGenerate t v).isInvalidDate = false := by
  unfold stageGenerate; split <;> rfl

theorem stageRange_isInvalidDate (t : TemplateDefinition) (v : Values) :
    (stageRange t v).isInvalidDate = false := by
  unfold stageRange
  dsimp only
  split
  · rfl
  · exact stageGenerate_isInvalidDate t v

theorem stageGenerate_ne_dateRange (t : TemplateDefinition) (v : Values) :
    stageGenerate t v ≠ .dateRangeError := by
  unfold stageGenerate; split <;> simp

/-- `required !== false` coincides with `required ?? true`. -/
theorem required_ne_iff_getD (r : Option Bool) : (r != some false) = r.getD true := by
  cases r with
  | none => rfl
  | some b => cases b <;> rfl

/-- Every field selected by the `dateFields` filter would already have been
selected by the missing-field check. -/
theorem dateBad_imp_missing (v : Values) (f : TemplateField)
    (h : dateBadPred v f = true) : missingPred v f = true := by
  unfold dateBadPred at h
  unfold missingPred
  simp only [Bool.and_eq_true] at h ⊢
  obtain ⟨⟨⟨_, hvis⟩, hreq⟩, hemp⟩ := h
  refine ⟨⟨hvis, ?_⟩, hemp⟩
  rw [← required_ne_iff_getD]
  exact hreq

/-- If the missing-field check passes, the `dateFields` list is empty. -/
theorem dateBad_filter_nil (t : TemplateDefinition) (v : Values)
    (h : t.fields.find? (missingPred v) = none) :
    t.fields.filter (dateBadPred v) = [] := by
  rw [List.filter_eq_nil_iff]
  intro a ha hba
  exact List.find?_eq_none.mp h a ha (dateBad_imp_missing v a hba)

/-- Inversion: a `MissingField` outcome comes from the missing-field
`find?`. -/
theorem vag_missingField_inv {t : TemplateDefinition} {v : Values} {lab : String}
    (h : validateAndGenerate t v = .missingField lab) :
    ∃ f, t.fields.find? (missingPred v) = some f ∧ f.label = lab := by
  unfold validateAndGenerate at h
  split at h
  · rename_i f hf
    injection h with h1
    exact ⟨f, hf, h1⟩
  · exact absurd h (ne_missingField_of_not (stagePattern_isMissing t v) lab)

/-- Inversion: an `InvalidFormat` outcome comes from the pattern-loop
`find?`. -/
theorem vag_invalidFormat_inv {t : TemplateDefinition} {v : Values} {lab m : String}
    (h : validateAndGenerate t v = .invalidFormat lab m) :
    ∃ f, t.fields.find? (patternFailPred v) = some f ∧ f.label = lab := by
  unfold validateAndGenerate at h
  split at h
  · simp at h
  · unfold stagePattern at h
    split at h
    · rename_i f hf
      injection h with h1 h2
      exact ⟨f, hf, h1⟩
    · exact absurd h (ne_invalidFormat_of_not (stageDate_isInvalidFormat t v) lab m)

/-! ## Claim theorems -/

/-- Claim C2: for every template and value map, if some active field whose
`required` is not explicitly false has an absent or whitespace-only value,
generation fails with `MissingField` naming the label of the first such
field in declaration order (`find?` over the declared fields), and no
output string is produced. -/
theorem claim2_missing_field (t : TemplateDefinition) (v : Values)
    (f : TemplateField) (h : t.fields.find? (missingPred v) = some f) :
    validateAndGenerate t v = .missingField f.label := by
  unfold validateAndGenerate
  rw [h]

/-- Claim C2 witness: omitting the Name field of the Off Awarded template
yields `MissingField "Name"`. -/
theorem claim2_missing_field_witness :
    validateAndGenerate offAwarded offAwardedNoName = .missingField "Name" := by
  have h : offAwarded.fields.find? (missingPred offAwardedNoName) =
      some { key := "name", label := "Name", type := .input } := by decide
  exact claim2_missing_field offAwarded offAwardedNoName _ h

/-- Claim C3: a field is active iff it has no `showIf` or the current value
of the referenced field equals the required string; and a field guarded by
`showIf isHalfDay = "true"` (the `timeOff` field, labelled "AM OFF/PM OFF")
never triggers `MissingField` — nor `InvalidFormat` — when `isHalfDay` is
`"false"` or absent. -/
theorem claim3_show_if_visibility :
    (∀ (f : TemplateField) (v : Values),
        isFieldVisible f v = true ↔
          (f.showIf = none ∨ ∃ c, f.showIf = some c ∧ v c.key = some c.equals)) ∧
    (∀ v : Values, (v "isHalfDay" = some "false" ∨ v "isHalfDay" = none) →
        validateAndGenerate offTemplate v ≠ .missingField "AM OFF/PM OFF" ∧
        ∀ m, validateAndGenerate offTemplate v ≠ .invalidFormat "AM OFF/PM OFF" m) := by
  constructor
  · intro f v
    unfold isFieldVisible
    cases hsi : f.showIf with
    | none => simp
    | some c => simp [beq_iff_eq]
  · intro v hv
    constructor
    · intro hc
      obtain ⟨f, hfind, hlab⟩ := vag_missingField_inv hc
      have hmem := List.mem_of_find?_eq_some hfind
      have hpred := List.find?_some hfind
      fin_cases hmem <;> simp_all only []
      · simp at hlab
      · simp at hlab
      · simp at hlab
      · simp at hlab
      · simp at hlab
      · simp at hlab
      · -- the timeOff field: invisible under the hypothesis
        rcases hv with h | h <;> simp [missingPred, isFieldVisible, h] at hpred
      · simp at hlab
      · simp at hlab
    · intro m hc
      obtain ⟨f, hfind, hlab⟩ := vag_invalidFormat_inv hc
      have hmem := List.mem_of_find?_eq_some hfind
      have hpred := List.find?_some hfind
      fin_cases hmem <;> simp_all only []
      · simp at hlab
      · simp at hlab
      · simp at hlab
      · simp at hlab
      · simp at hlab
      · simp at hlab
      · -- the timeOff field declares no pattern, so it cannot fail the loop
        simp [patternFailPred] at hpred
      · simp at hlab
      · simp at hlab

/-- Claim C3 witness: with `isHalfDay = "false"` and `timeOff` absent, the
Leave/Off template never reports the guarded field as missing. -/
theorem claim3_show_if_visibility_witness :
    validateAndGenerate offTemplate offTemplateNoHalf ≠
      .missingField "AM OFF/PM OFF" :=
  (claim3_show_if_visibility.2 offTemplateNoHalf (Or.inr rfl)).1

/-- Claim C4: the startTimeIncident pattern
`^([01][0-9]|2[0-3])[0-5][0-9]$` accepts "1320" and rejects "2460" and
"999" under full-string (anchored) matching, and whenever the missing-field
check passes and a first active field with a declared pattern and non-empty
value fails its test, the pipeline returns `InvalidFormat` with that
field's `errorMessage` or the default message. -/
theorem claim4_pattern_check :
    jsRegexTest patTime "1320" = true ∧
    jsRegexTest patTime "2460" = false ∧
    jsRegexTest patTime "999" = false ∧
    ∀ (t : TemplateDefinition) (v : Values) (f : TemplateField),
      t.fields.find? (missingPred v) = none →
      t.fields.find? (patternFailPred v) = some f →
      validateAndGenerate t v =
        .invalidFormat f.label (f.errorMessage.getD (defaultPatternMsg f)) := by
  refine ⟨by decide, by decide, by decide, fun t v f h1 h2 => ?_⟩
  unfold validateAndGenerate
  rw [h1]
  unfold stagePattern
  rw [h2]

/-- Claim C4 witness: submitting "2460" as the start time of the sick
report fails with the field's 24-hour-format error message. -/
theorem claim4_pattern_check_witness :
    validateAndGenerate reportSick (reportSickVals "2460") =
      .invalidFormat "Start Time of Incident"
        "Time must be in 24hr format (e.g. 1320)" := by
  have h := claim4_pattern_check.2.2.2 reportSick (reportSickVals "2460")
    { key := "startTimeIncident", label := "Start Time of Incident",
      type := .input, pattern := some patTime,
      errorMessage := some "Time must be in 24hr format (e.g. 1320)" }
    (by decide) (by decide)
  exact h

/-- Claim C5: on the Off Awarded template (one date field whose key
contains "start", one whose key contains "end"), once the earlier checks
pass and both dates parse, generation fails with `DateRangeError` exactly
when the parsed end date is strictly before the parsed start date; and when
`startDate` equals `endDate` generation succeeds with the long-form
rendering collapsed to a single "d MMMM" date (no " to "). -/
theorem claim5_date_range :
    (∀ (sd ed : String) (a b : CivilDate),
        parseDate sd = some a → parseDate ed = some b →
        offAwarded.fields.find? (missingPred (offAwardedVals sd ed)) = none →
        (validateAndGenerate offAwarded (offAwardedVals sd ed) = .dateRangeError ↔
          b.toDays < a.toDays)) ∧
    validateAndGenerate offAwarded (offAwardedVals "2025-06-03" "2025-06-03") =
      .ok "• Rank/Name: 3SG JOHN\n• Reason for Accumulation: Support\n• Dates Accumulated: 3 June\n• Balance (After Accumulation): 2\n• Recommended By: ME3 Alex" := by
  constructor
  · intro sd ed a b hpa hpb hm
    unfold validateAndGenerate
    rw [hm]
    unfold stagePattern
    have hp : offAwarded.fields.find? (patternFailPred (offAwardedVals sd ed)) = none := rfl
    rw [hp]
    unfold stageDate
    rw [dateBad_filter_nil _ _ hm, List.find?_nil]
    have hred : stageRange offAwarded (offAwardedVals sd ed) =
        if optDateLt (parseDate ed) (parseDate sd) then .dateRangeError
        else stageGenerate offAwarded (offAwardedVals sd ed) := rfl
    rw [hred, hpa, hpb]
    unfold optDateLt
    by_cases hlt : b.toDays < a.toDays
    · simp [hlt]
    · simp [hlt, stageGenerate_ne_dateRange]
  · decide

/-- Claim C5 witness: end date 2025-06-01 strictly before start date
2025-06-03 produces `DateRangeError`. -/
theorem claim5_date_range_witness :
    validateAndGenerate offAwarded (offAwardedVals "2025-06-03" "2025-06-01") =
      .dateRangeError :=
  (claim5_date_range.1 "2025-06-03" "2025-06-01" ⟨2025, 6, 3⟩ ⟨2025, 6, 1⟩
    (by decide) (by decide) (by decide)).mpr (by decide)

/-- Claim C6 counterexample: `startDate = "banana"` is a non-empty value of
an active required date field that does not parse as a calendar date, yet
generation does not fail with `InvalidDate "Start Date"` — the value slips
past the date-sanity filter (which only selects empty values) and the
failure surfaces only as the generic catch-all once `generate` throws. -/
theorem claim6_counterexample :
    parseDate "banana" = none ∧
    validateAndGenerate offAwarded (offAwardedVals "banana" "2025-06-05") =
      .genericError ∧
    validateAndGenerate offAwarded (offAwardedVals "banana" "2025-06-05") ≠
      .invalidDate "Start Date" :=
  ⟨by decide, by decide, by decide⟩

/-- Claim C6 (amended): the `InvalidDate` outcome is unreachable for every
template and value map — an active required date field with an empty value
already fails the earlier missing-field check, and the date-sanity filter
selects only empty-valued fields. -/
theorem claim6_invalid_date_unreachable (t : TemplateDefinition) (v : Values) :
    (validateAndGenerate t v).isInvalidDate = false := by
  unfold validateAndGenerate
  cases h : t.fields.find? (missingPred v) with
  | some f => rfl
  | none =>
    unfold stagePattern
    cases t.fields.find? (patternFailPred v) with
    | some f => rfl
    | none =>
      unfold stageDate
      rw [dateBad_filter_nil t v h, List.find?_nil]
      exact stageRange_isInvalidDate t v

/-- Claim C7 counterexample: a whitespace-only line adjacent to a rewritten
label line is not preserved — the multiline match of `^\s*OS:\s*\d+\s*$`
absorbs the preceding blank line, so the output drops it, contradicting
"every other line unchanged". -/
theorem claim7_counterexample :
    nightStrengthGenerate "07/02/2026" "3SG" "John" ps8blank "30" =
      "11FMD NIGHT STRENGTH 07/02/2026 BY 3SG JOHN\n\nHQ STRENGTH\nOS: 0\nSTAYIN: 40\nSTAYOUT: 9\nOTHERS: 0\nRSO: 0\nRSI: 0\n\nSTAYIN DETAILS\nBLK210: 30\nBLK420: 10" ∧
    nightStrengthGenerate "07/02/2026" "3SG" "John" ps8blank "30" ≠
      "11FMD NIGHT STRENGTH 07/02/2026 BY 3SG JOHN\n\nHQ STRENGTH\n\nOS: 0\nSTAYIN: 40\nSTAYOUT: 9\nOTHERS: 0\nRSO: 0\nRSI: 0\n\nSTAYIN DETAILS\nBLK210: 30\nBLK420: 10" :=
  ⟨by decide, by decide⟩

/-- Claim C7 (amended): the night-strength generator extracts the
line-anchored values (absent labels defaulting to 0), computes
`newStayOut = STAYOUT + (OS + OTHERS + RSO + RSI)` and
`blk420 = STAYIN − blk210`, zeroes the four absence lines and rewrites
STAYOUT; on the §8 example (no whitespace-only lines adjoin the label
lines) every other line is unchanged and the output shows `STAYOUT: 9` and
`BLK420: 10`. -/
theorem claim7_night_strength :
    labelValue "STAYIN" ps8 = 40 ∧ labelValue "STAYOUT" ps8 = 5 ∧
    labelValue "OS" ps8 = 2 ∧ labelValue "OTHERS" ps8 = 1 ∧
    labelValue "RSO" ps8 = 0 ∧ labelValue "RSI" ps8 = 1 ∧
    nightStrengthGenerate "07/02/2026" "3SG" "John" ps8 "30" =
      "11FMD NIGHT STRENGTH 07/02/2026 BY 3SG JOHN\n\nSTAYIN: 40\nSTAYOUT: 9\nOS: 0\nOTHERS: 0\nRSO: 0\nRSI: 0\n\nSTAYIN DETAILS\nBLK210: 30\nBLK420: 10" :=
  ⟨by decide, by decide, by decide, by decide, by decide, by decide, by decide⟩

/-- Claim C8 counterexample: the single-entry output is not the plain
concatenation of header, date line and three full stanzas — the final
`trimEnd()` removes the last stanza's blank line and the trailing space of
its `NUMBER: ` label. -/
theorem claim8_counterexample :
    buildGuardDutyList 1 2026 [entryFeb7] ≠
      .ok "GUARD DUTY FEBRUARY 2026\n7/2 (SATURDAY)\n2IC: \nNUMBER: \n \nG: \nNUMBER: \n \nG: \nNUMBER: \n \n" := by
  decide

/-- Claim C8 (amended): zero entries fail with `NoEntries`; the 7 Feb 2026
entry with IC set {2IC} and two guards yields exactly the header, the
`7/2 (SATURDAY)` date line, a 2IC stanza and two G stanzas with the final
stanza's trailing whitespace trimmed, and no trailing separator; with a
second entry the ten-`=` separator appears between the blocks only. -/
theorem claim8_guard_duty_builder :
    buildGuardDutyList 1 2026 [] = .noEntries ∧
    buildGuardDutyList 1 2026 [entryFeb7] =
      .ok "GUARD DUTY FEBRUARY 2026\n7/2 (SATURDAY)\n2IC: \nNUMBER: \n \nG: \nNUMBER: \n \nG: \nNUMBER:" ∧
    buildGuardDutyList 1 2026 [entryFeb7, entryFeb9] = .ok gdListFeb :=
  ⟨by decide, by decide, by decide⟩

/-- Claim C9 counterexample: on input `"hello\n"` (no date line) the pruner
returns the trimmed text `"hello"`, not the original input unchanged. -/
theorem claim9_counterexample :
    pruneGuardDutyList "hello\n" 0 2025 ≠ "hello\n" := by
  decide

/-- Claim C9 (amended): the pruner is a total function (it returns a string
for every input); blank input yields the empty string; and when the
date-line scan finds no match in the body it returns the CRLF-normalized,
trimmed input text (not necessarily the original verbatim). -/
theorem claim9_prune_fallback :
    (∀ (raw : String) (today cy : Int),
        jsTrim (normalizeCRLF raw) = "" → pruneGuardDutyList raw today cy = "") ∧
    (∀ (raw : String) (today cy : Int),
        jsTrim (normalizeCRLF raw) ≠ "" →
        findAllDateMatches (pruneBody (jsTrim (normalizeCRLF raw)).data) = [] →
        pruneGuardDutyList raw today cy = jsTrim (normalizeCRLF raw)) := by
  constructor
  · intro raw today cy h
    unfold pruneGuardDutyList
    simp [h]
  · intro raw today cy h1 h2
    unfold pruneGuardDutyList
    rw [if_neg (by simpa using h1)]
    dsimp only
    rw [h2]
    simp

/-- Claim C9 witness: the fallback branch at work on `"hello\n"`. -/
theorem claim9_prune_fallback_witness :
    pruneGuardDutyList "hello\n" 0 2025 = jsTrim (normalizeCRLF "hello\n") :=
  claim9_prune_fallback.2 "hello\n" 0 2025 (by decide) (by decide)

/-- Claim C10: in the Leave/Off generate function the bracketed
time-of-day tag is appended exactly when both `isHalfDay` and `timeOff`
are non-empty strings — string truthiness, not boolean truth — so
`isHalfDay = "false"` still produces the tag. -/
theorem claim10_half_day_tag :
    (∀ ihd : String,
        offTemplateGenerate (offTemplateVals ihd "PM") =
          some (if ihd != "" then
            " • Rank/Name: 3SG JOHN\n • Type: Leave\n • Dates: 3 June to 4 June [PM]\n • Balance Left: 2\n • Recommended By: ME3 Alex"
          else
            " • Rank/Name: 3SG JOHN\n • Type: Leave\n • Dates: 3 June to 4 June \n • Balance Left: 2\n • Recommended By: ME3 Alex")) ∧
    offTemplateGenerate (offTemplateVals "false" "PM") =
      some " • Rank/Name: 3SG JOHN\n • Type: Leave\n • Dates: 3 June to 4 June [PM]\n • Balance Left: 2\n • Recommended By: ME3 Alex" ∧
    offTemplateGenerate (offTemplateVals "" "PM") =
      some " • Rank/Name: 3SG JOHN\n • Type: Leave\n • Dates: 3 June to 4 June \n • Balance Left: 2\n • Recommended By: ME3 Alex" ∧
    offTemplateGenerate (offTemplateVals "true" "") =
      some " • Rank/Name: 3SG JOHN\n • Type: Leave\n • Dates: 3 June to 4 June \n • Balance Left: 2\n • Recommended By: ME3 Alex" := by
  refine ⟨fun ihd => ?_, by decide, by decide, by decide⟩
  have hred : offTemplateGenerate (offTemplateVals ihd "PM") =
      some (" • Rank/Name: 3SG JOHN\n • Type: Leave\n • Dates: 3 June to 4 June " ++
        (if ihd != "" && ("PM" != "") then "[" ++ "PM" ++ "]" else "") ++
        "\n • Balance Left: " ++ "2" ++ "\n • Recommended By: " ++ "ME3 Alex") := rfl
  rw [hred]
  cases h : ihd != "" <;> simp only [h, Bool.false_and, Bool.true_and,
    Bool.and_self, if_false, if_true, Bool.false_eq_true, ite_false, ite_true] <;> decide

/-- Claim C1 counterexample: re-pruning the pruner's own output of the
canonical two-block February 2026 guard-duty list (with `today` before both
dates, so both blocks are kept) does not give the same string — the second
pass absorbs the canonical separator's trailing blank line into the second
block. -/
theorem claim1_counterexample :
    pruneGuardDutyList
        (pruneGuardDutyList gdListFeb (daysFromCivil 2026 2 1) 2026)
        (daysFromCivil 2026 2 1) 2026 ≠
      pruneGuardDutyList gdListFeb (daysFromCivil 2026 2 1) 2026 := by
  decide

/-- Claim C1 (amended): pruning is idempotent only in restricted cases —
concretely, on the canonical builder output with `today = 9 Feb 2026` the
past block is dropped and the result is a fixed point of another prune;
in general a second application renormalises whitespace at block boundaries
and idempotence fails. -/
theorem claim1_prune_idempotent_restricted :
    pruneGuardDutyList gdListFeb (daysFromCivil 2026 2 9) 2026 =
      "GUARD DUTY FEBRUARY 2026\n\n9/2 (MONDAY)\nG: \nNUMBER: \n \nG: \nNUMBER: \n \nG: \nNUMBER:" ∧
    pruneGuardDutyList
        "GUARD DUTY FEBRUARY 2026\n\n9/2 (MONDAY)\nG: \nNUMBER: \n \nG: \nNUMBER: \n \nG: \nNUMBER:"
        (daysFromCivil 2026 2 9) 2026 =
      "GUARD DUTY FEBRUARY 2026\n\n9/2 (MONDAY)\nG: \nNUMBER: \n \nG: \nNUMBER: \n \nG: \nNUMBER:" :=
  ⟨by decide, by decide⟩

end FMW2
